import Mathlib

/-
Verification development for the level-blueprint backend.

The repository holds two variants of a single-endpoint Express service:
`src/server.js` (system prompt with a "Level Layout Data" section and an extra
constraint paragraph in the user prompt) and `src/unnamed/part_000` (the plain
variant).  Both expose `POST /api/level-blueprint`: they validate the JSON
request body, synthesize a prompt, forward it to the OpenAI chat-completions
API with the caller-supplied key, and relay the result.

The embedding below models JavaScript values as far as the handler inspects
them (truthiness, `String.prototype.trim`, `parseInt`, template-literal
interpolation, optional chaining on the parsed upstream JSON), the handler of
each variant as a pure function from the request body and the upstream's
response to the HTTP response paired with the outbound call (if one was made),
and the `try`/`catch` boundary as an `Except`-style propagation of the thrown
error's message into the `500 Server error` response.
-/

/-- A JavaScript value as far as the handler inspects the request-body fields:
`undefined` (absent field), `null`, strings, numbers (integral — every numeric
input exercised by the spec is an integer), and booleans. -/
inductive JsValue where
  | undefined
  | null
  | str (s : String)
  | num (n : Int)
  | bool (b : Bool)

/-- JavaScript truthiness of a `JsValue` (`undefined`, `null`, `""`, `0` and
`false` are falsy). -/
def jsTruthy : JsValue → Bool
  | .undefined => false
  | .null => false
  | .str s => s ≠ ""
  | .num n => n ≠ 0
  | .bool b => b

/-- JavaScript `ToString` on a `JsValue`, as used by template-literal
interpolation and by `parseInt`'s implicit argument coercion. -/
def jsToString : JsValue → String
  | .undefined => "undefined"
  | .null => "null"
  | .str s => s
  | .num n => toString n
  | .bool b => if b then "true" else "false"

/-- `String.prototype.trim`: strip leading and trailing whitespace.  (Defined
over the character list so that it reduces in the kernel; `String.trim` of
core Lean computes the same result but is stated over byte positions.) -/
def trimStr (s : String) : String :=
  String.mk (((s.data.dropWhile Char.isWhitespace).reverse.dropWhile Char.isWhitespace).reverse)

/-- `v.trim()` on a JavaScript value: defined on strings, a thrown `TypeError`
on any other truthy value.  The error carries the message text Node.js
produces for `expr.trim is not a function`. -/
def jsTrim (expr : String) : JsValue → Except String String
  | .str s => .ok (trimStr s)
  | _ => .error (expr ++ ".trim is not a function")

/-- `parseInt(s, 10)`: skip leading whitespace, read an optional sign and the
longest run of decimal digits; `none` models the `NaN` result when no digit is
found. -/
def parseIntStr (s : String) : Option Int :=
  let l := s.data.dropWhile Char.isWhitespace
  let signAndRest : Bool × List Char :=
    match l with
    | '-' :: r => (true, r)
    | '+' :: r => (false, r)
    | r => (false, r)
  let ds := signAndRest.2.takeWhile Char.isDigit
  if ds.isEmpty then none
  else
    let n : Nat := ds.foldl (fun a c => a * 10 + (c.toNat - 48)) 0
    some (if signAndRest.1 then -(n : Int) else (n : Int))

/-- `Math.min(Math.max(parseInt(count, 10) || 1, 1), 10)` from both handlers:
the normalized level count. -/
def safeCount (v : JsValue) : Int :=
  let p := parseIntStr (jsToString v)
  let x : Int :=
    match p with
    | none => 1
    | some 0 => 1
    | some n => n
  min (max x 1) 10

/-- `${themeKeywords || "none"}` from the user-prompt template. -/
def themeText (v : JsValue) : String :=
  if jsTruthy v then jsToString v else "none"

/-- `${extraNotes && extraNotes.trim().length > 0 ? extraNotes.trim() : "No additional notes."}`
from the user-prompt template; `.trim()` on a truthy non-string throws. -/
def notesPart (v : JsValue) : Except String String :=
  if jsTruthy v then
    match v with
    | .str t =>
        .ok (if (trimStr t).length > 0 then trimStr t else "No additional notes.")
    | _ => .error ("extraNotes.trim is not a function")
  else .ok ("No additional notes.")

/-- The value `notesPart` yields when it does not throw, i.e. when
`extraNotes` is a string or falsy. -/
def notesTextPure : JsValue → String
  | .str t => if (trimStr t).length > 0 then trimStr t else "No additional notes."
  | _ => "No additional notes."

/-- Parsed JSON, the result of `apiResponse.json()`. -/
inductive Json where
  | null
  | bool (b : Bool)
  | num (n : Int)
  | str (s : String)
  | arr (elems : List Json)
  | obj (fields : List (String × Json))

/-- First binding of a key in a JSON object's field list. -/
def lookupField : List (String × Json) → String → Option Json
  | [], _ => none
  | (k, v) :: rest, key => if k = key then some v else lookupField rest key

/-- Plain JavaScript property access `v.key` on a parsed JSON value: throws on
`null`, yields `undefined` (modelled as `none`) when the property is absent or
the value is a primitive or an array. -/
def jsProp (v : Json) (key : String) : Except String (Option Json) :=
  match v with
  | .null => .error ("Cannot read properties of null (reading \x27" ++ key ++ "\x27)")
  | .obj fs => .ok (lookupField fs key)
  | _ => .ok none

/-- Property access used after an optional-chaining guard (the receiver is
known non-null and defined). -/
def jsPropOpt (key : String) (v : Json) : Option Json :=
  match v with
  | .obj fs => lookupField fs key
  | _ => none

/-- Index access `v[i]` used after an optional-chaining guard: array element,
object property named by the index, or single character of a string. -/
def jsIndexOpt (i : Nat) (v : Json) : Option Json :=
  match v with
  | .arr xs => xs.get? i
  | .obj fs => lookupField fs (toString i)
  | .str s => (s.data.get? i).map (fun c => .str (String.mk [c]))
  | _ => none

/-- One `?.` step: short-circuit to `undefined` when the previous result is
`undefined` or `null`, otherwise apply the access. -/
def optStep (prev : Option Json) (f : Json → Option Json) : Option Json :=
  match prev with
  | none => none
  | some .null => none
  | some j => f j

/-- `data.choices?.[0]?.message?.content`: the first access may throw (when
`data` itself is `null`), the guarded steps cannot. -/
def chainPath (data : Json) : Except String (Option Json) :=
  match jsProp data ("choices") with
  | .error e => .error e
  | .ok c =>
      .ok (optStep (optStep (optStep c (jsIndexOpt 0)) (jsPropOpt ("message"))) (jsPropOpt ("content")))

/-- JavaScript truthiness of a parsed JSON value. -/
def jsonTruthy : Json → Bool
  | .null => false
  | .bool b => b
  | .num n => n ≠ 0
  | .str s => s ≠ ""
  | .arr _ => true
  | .obj _ => true

/-- `x || ""`: keep a truthy value, replace anything falsy (including the
`undefined` produced by a broken chain) by the empty string. -/
def jsOrEmpty : Option Json → Json
  | none => .str ""
  | some j => if jsonTruthy j then j else .str ""

/-- `data.choices?.[0]?.message?.content || ""` — the extraction both handlers
apply to a successful upstream response. -/
def extractContent (data : Json) : Except String Json :=
  match chainPath data with
  | .error e => .error e
  | .ok r => .ok (jsOrEmpty r)

/-- One entry of the `messages` array of the outbound chat-completions call. -/
structure Message where
  role : String
  content : String
  deriving DecidableEq

/-- The single outbound `fetch` both handlers perform: URL, method, headers,
and the JSON body fields (`model`, `messages`, `temperature`, `max_tokens`). -/
structure OutboundCall where
  url : String
  method : String
  authorization : String
  contentType : String
  model : String
  messages : List Message
  temperature : Rat
  max_tokens : Nat
  deriving DecidableEq

/-- The JSON body shapes the service sends to its caller. -/
inductive Body where
  | errorMessage (error message : String)
  | errorOnly (error : String)
  | errorDetail (error detail : String)
  | contentBody (content : Json)

/-- Status and body of the service's reply. -/
structure HttpResponse where
  status : Nat
  body : Body

/-- The destructured fields of `req.body`; an absent field destructures to
`undefined`. -/
structure LevelRequest where
  apiKey : JsValue
  genre : JsValue
  camera : JsValue
  stagePosition : JsValue
  playtime : JsValue
  difficulty : JsValue
  focus : JsValue
  themeKeywords : JsValue
  count : JsValue
  extraNotes : JsValue

/-- The upstream API's reply as the handler observes it: `ok` (success
status), the raw error-body text read by `.text()` on failure, and the parsed
JSON read by `.json()` on success. -/
structure UpstreamResponse where
  ok : Bool
  bodyText : String
  data : Json

/-- The `400` reply for a missing or blank `apiKey` (identical in both
variants). -/
def credResp : HttpResponse :=
  ⟨400, .errorMessage ("No API key provided") ("Please send your OpenAI API key in the \x27apiKey\x27 field.")⟩

/-- The reply produced after the upstream call, as a function of the
upstream's response alone: the non-success branch, or content extraction
(whose property access throws on a `null` envelope, landing in the `catch`). -/
def tailResp (up : UpstreamResponse) : HttpResponse :=
  if up.ok then
    match extractContent up.data with
    | .ok c => ⟨200, .contentBody c⟩
    | .error msg => ⟨500, .errorDetail ("Server error") msg⟩
  else ⟨500, .errorDetail ("OpenAI API error") up.bodyText⟩

/-- The extra constraint paragraph `src/server.js` appends to the user prompt
(absent from `src/unnamed/part_000`). -/
def layoutTail : String :=
  "\n- For every level, you MUST also include the \x27Level Layout Data (for Visualizer)\x27\n  section at the end, with a valid \x60level-json\x60 block that approximates a\n  top-down layout of the described level."

namespace ServerJs

/-- The system-prompt constant of `src/server.js` (the variant with the
`Level Layout Data (for Visualizer)` section). -/
def SYSTEM_PROMPT : String :=
  "\n"
  ++ "You are a senior game level designer and lead designer mentor.\n"
  ++ "Your job is to generate *production-ready* level blueprints for indie / AA teams.\n"
  ++ "\n"
  ++ "GOAL:\n"
  ++ "For each request, you will generate 1–10 level ideas.\n"
  ++ "Each level idea must be a \"Level Blueprint\" that an actual team could prototype\n"
  ++ "within 5–14 days, not a vague concept sentence.\n"
  ++ "\n"
  ++ "The buyer of this tool expects:\n"
  ++ "- Professional tone and clear structure\n"
  ++ "- Practical scope for small teams\n"
  ++ "- Explicit notes that programmers / artists / QA can use\n"
  ++ "- A bit of creative flavor, but no meaningless buzzwords\n"
  ++ "\n"
  ++ "OUTPUT FORMAT:\n"
  ++ "Respond in Markdown. For each level, use this structure exactly:\n"
  ++ "\n"
  ++ "## Level \x7bN\x7d: \x7bShort Level Title\x7d\n"
  ++ "\n"
  ++ "### 1. Level Summary\n"
  ++ "- Genre:\n"
  ++ "- Camera:\n"
  ++ "- Recommended Stage Position: (Tutorial / Early / Mid / Late / Endgame)\n"
  ++ "- Target Playtime:\n"
  ++ "- Player Fantasy: (one sentence that captures the emotional fantasy)\n"
  ++ "- Design Pillars: (2–3 short bullet points that define the core experience)\n"
  ++ "\n"
  ++ "### 2. Core Objective & Failure\n"
  ++ "- Primary Objective:\n"
  ++ "- Secondary/Optional Objectives:\n"
  ++ "- Fail Conditions:\n"
  ++ "\n"
  ++ "### 3. Layout & Flow\n"
  ++ "- Layout Archetype: (e.g., Linear Corridor / Hub & Spoke / Looping Route / Branching / Arena)\n"
  ++ "- Zones:\n"
  ++ "  - Zone A (Intro / Warm-up):\n"
  ++ "  - Zone B (Main Challenge):\n"
  ++ "  - Zone C (Climax / Boss / Final Push):\n"
  ++ "  - Zone D (Cool-down / Reward Area) [optional]\n"
  ++ "- Flow Steps:\n"
  ++ "  1. ...\n"
  ++ "  2. ...\n"
  ++ "  3. ...\n"
  ++ "  4. ...\n"
  ++ "\n"
  ++ "### 4. Difficulty & Pacing\n"
  ++ "- Difficulty Curve: (describe Warm-up → Spike → Recovery → Climax)\n"
  ++ "- Pacing Notes: (combat/exploration/puzzle ratio, tension → release rhythm)\n"
  ++ "- Target Player Profile: (who this level is tuned for: casual / experienced / expert)\n"
  ++ "\n"
  ++ "### 5. Mechanics, Enemies & Hazards\n"
  ++ "- Core Mechanics Focus: (movement, dash, parry, stealth, platforming, etc.)\n"
  ++ "- Enemy / Hazard Roles:\n"
  ++ "  - Chaser:\n"
  ++ "  - Sniper:\n"
  ++ "  - Bruiser:\n"
  ++ "  - Support / Controller:\n"
  ++ "- Environmental Gimmicks:\n"
  ++ "- Suggested Combos of Mechanics + Gimmicks:\n"
  ++ "\n"
  ++ "### 6. Rewards & Optional Content\n"
  ++ "- Main Rewards:\n"
  ++ "- Optional / Secret Areas:\n"
  ++ "- Risk–Reward Notes:\n"
  ++ "\n"
  ++ "### 7. Narrative & Environment\n"
  ++ "- Narrative Hook: (what story/feeling this level conveys)\n"
  ++ "- Environmental Storytelling Ideas: (props, destroyed objects, notes, signs, etc.)\n"
  ++ "- Optional Dialogue / VO Hooks: (1–3 short example lines, if relevant)\n"
  ++ "\n"
  ++ "### 8. Scope & Production Notes\n"
  ++ "- Estimated Asset Requirements:\n"
  ++ "  - New Enemy Types:\n"
  ++ "  - New Gimmicks:\n"
  ++ "  - New Environment Pieces:\n"
  ++ "- Estimated Solo Dev Time: (rough days for a prototype)\n"
  ++ "- Scope Risk Notes: (what to cut first if time is short)\n"
  ++ "- Reuse Opportunities: (what can be reused from previous levels or packs)\n"
  ++ "\n"
  ++ "### 9. Playtest Checklist\n"
  ++ "- Clarity:\n"
  ++ "- Fairness:\n"
  ++ "- Pacing:\n"
  ++ "- Performance / Technical:\n"
  ++ "\n"
  ++ "### 10. Design Notes for Dev Team\n"
  ++ "- Tuning Tips: (how to adjust difficulty / pacing quickly)\n"
  ++ "- Implementation Risks: (what could break or take unexpectedly long)\n"
  ++ "- Recommended Prototype Order: (what to build first when time is limited)\n"
  ++ "\n"
  ++ "### 11. Level Layout Data (for Visualizer)\n"
  ++ "After all design notes, add a machine-readable layout block for each level\n"
  ++ "using the following JSON schema, inside a fenced code block labeled \x60level-json\x60.\n"
  ++ "\n"
  ++ "Example format (adapt this to each specific level):\n"
  ++ "\n"
  ++ "\x60\x60\x60level-json\n"
  ++ "\x7b\n"
  ++ "  \"specVersion\": \"1.0\",\n"
  ++ "  \"theme\": \"toy_factory\",\n"
  ++ "  \"flowType\": \"linear\",\n"
  ++ "  \"rooms\": [\n"
  ++ "    \x7b\n"
  ++ "      \"id\": \"R1\",\n"
  ++ "      \"label\": \"Start Alley\",\n"
  ++ "      \"type\": \"spawn\",\n"
  ++ "      \"x\": 0,\n"
  ++ "      \"y\": 0,\n"
  ++ "      \"w\": 4,\n"
  ++ "      \"h\": 3\n"
  ++ "    \x7d,\n"
  ++ "    \x7b\n"
  ++ "      \"id\": \"R2\",\n"
  ++ "      \"label\": \"Main Corridor Loop\",\n"
  ++ "      \"type\": \"combat\",\n"
  ++ "      \"x\": 6,\n"
  ++ "      \"y\": 0,\n"
  ++ "      \"w\": 6,\n"
  ++ "      \"h\": 4\n"
  ++ "    \x7d,\n"
  ++ "    \x7b\n"
  ++ "      \"id\": \"R3\",\n"
  ++ "      \"label\": \"Courtyard Arena\",\n"
  ++ "      \"type\": \"boss\",\n"
  ++ "      \"x\": 14,\n"
  ++ "      \"y\": 0,\n"
  ++ "      \"w\": 7,\n"
  ++ "      \"h\": 5\n"
  ++ "    \x7d\n"
  ++ "  ],\n"
  ++ "  \"connections\": [\n"
  ++ "    \x7b\n"
  ++ "      \"from\": \"R1\",\n"
  ++ "      \"to\": \"R2\",\n"
  ++ "      \"type\": \"corridor\"\n"
  ++ "    \x7d,\n"
  ++ "    \x7b\n"
  ++ "      \"from\": \"R2\",\n"
  ++ "      \"to\": \"R3\",\n"
  ++ "      \"type\": \"arena_gate\"\n"
  ++ "    \x7d\n"
  ++ "  ]\n"
  ++ "\x7d\n"
  ++ "\x60\x60\x60\n"
  ++ "\n"
  ++ "RULES FOR LAYOUT DATA:\n"
  ++ "- Always include this \x60Level Layout Data (for Visualizer)\x60 section for every level.\n"
  ++ "- Use integer grid coordinates for x, y, w, h (small values like 0–30).\n"
  ++ "- Place rooms so they roughly reflect the described flow and do not heavily overlap.\n"
  ++ "- Use usually 4–10 rooms per level (can be fewer if the level is intentionally tiny).\n"
  ++ "- \"theme\" should be a short token-like string that reflects the setting,\n"
  ++ "  for example: \"toy_factory\", \"abandoned_lab\", \"gothic_dungeon\", \"industrial_factory\".\n"
  ++ "- \"flowType\" should match the Layout Archetype when possible:\n"
  ++ "  - linear, branching, loop, hub, arena, semilinear, etc.\n"
  ++ "- \"type\" for rooms should be chosen from:\n"
  ++ "  - spawn, combat, puzzle, hub, boss, treasure, corridor, safe, checkpoint.\n"
  ++ "\n"
  ++ "RULES:\n"
  ++ "- Always respect the requested genre, camera type, difficulty target and focus.\n"
  ++ "- Ideas must be implementable in common engines (Unity/Unreal/Godot/RPG Maker).\n"
  ++ "- Avoid overcomplicated systems that would kill solo dev scope.\n"
  ++ "- Keep language concise but concrete: no vague buzzwords.\n"
  ++ "- When \"creative direction / extra notes\" are provided, align the tone, pacing and motifs with them.\n"

/-- The `userPrompt` template literal of `src/server.js` after its trailing
`.trim()`: the template's first and last characters are fixed newlines, so the
trim strips exactly those, and the trimmed text is embedded directly. -/
def userPromptStr (sc : Int) (genre camera stagePosition playtime difficulty focus theme notes : String) : String :=
  "Generate "
  ++ toString sc
  ++ " level blueprints.\n"
  ++ "\nGame context:\n- Genre: "
  ++ genre
  ++ "\n- Camera: "
  ++ camera
  ++ "\n- Target stage position: "
  ++ stagePosition
  ++ "\n- Target playtime: "
  ++ playtime
  ++ "\n- Target difficulty: "
  ++ difficulty
  ++ "\n- Primary focus: "
  ++ focus
  ++ "\n- Theme / setting keywords: "
  ++ theme
  ++ "\n\nCreative direction / extra notes from the designer:\n"
  ++ notes
  ++ "\n\nConstraints:\n- The blueprints should be suitable for an indie or small team.\n- Each level should feel distinct from the others.\n- Use the output structure defined in the system prompt.\n- Keep the tone professional (for internal design docs), but still readable."
  ++ layoutTail

/-- The `POST /api/level-blueprint` handler of `src/server.js`, as a function
of the request body and the upstream's response.  The result pairs the reply
with the outbound call, `none` when the upstream was never contacted.  The
JS `try`/`catch` appears as the `.error` branches: a thrown `TypeError` (from
`.trim()` on a non-string, or property access on a `null` envelope) becomes
the `500 Server error` reply. -/
def handle (req : LevelRequest) (up : UpstreamResponse) : HttpResponse × Option OutboundCall :=
  if !(jsTruthy req.apiKey) then (credResp, none)
  else
    match jsTrim ("apiKey") req.apiKey with
    | .error msg => (⟨500, .errorDetail ("Server error") msg⟩, none)
    | .ok keyT =>
      if keyT = "" then (credResp, none)
      else if !(jsTruthy req.genre) || !(jsTruthy req.camera) || !(jsTruthy req.stagePosition)
          || !(jsTruthy req.playtime) || !(jsTruthy req.difficulty) || !(jsTruthy req.focus)
          || !(jsTruthy req.count) then
        (⟨400, .errorOnly ("Missing required fields")⟩, none)
      else
        match notesPart req.extraNotes with
        | .error msg => (⟨500, .errorDetail ("Server error") msg⟩, none)
        | .ok notes =>
          let call : OutboundCall :=
            { url := "https://api.openai.com/v1/chat/completions"
              method := "POST"
              authorization := "Bearer " ++ keyT
              contentType := "application/json"
              model := "gpt-4o-mini"
              messages :=
                [⟨"system", SYSTEM_PROMPT⟩,
                 ⟨"user", userPromptStr (safeCount req.count) (jsToString req.genre)
                    (jsToString req.camera) (jsToString req.stagePosition) (jsToString req.playtime)
                    (jsToString req.difficulty) (jsToString req.focus) (themeText req.themeKeywords) notes⟩]
              temperature := 7/10
              max_tokens := 2800 }
          if !up.ok then (⟨500, .errorDetail ("OpenAI API error") up.bodyText⟩, some call)
          else
            match extractContent up.data with
            | .error msg => (⟨500, .errorDetail ("Server error") msg⟩, some call)
            | .ok content => (⟨200, .contentBody content⟩, some call)

end ServerJs

namespace Part000

/-- The system-prompt constant of `src/unnamed/part_000` (the plain variant,
sections 1-10 only). -/
def SYSTEM_PROMPT : String :=
  "\n"
  ++ "You are a senior game level designer and lead designer mentor.\n"
  ++ "Your job is to generate *production-ready* level blueprints for indie / AA teams.\n"
  ++ "\n"
  ++ "GOAL:\n"
  ++ "For each request, you will generate 1–10 level ideas.\n"
  ++ "Each level idea must be a \"Level Blueprint\" that an actual team could prototype\n"
  ++ "within 5–14 days, not a vague concept sentence.\n"
  ++ "\n"
  ++ "The buyer of this tool expects:\n"
  ++ "- Professional tone and clear structure\n"
  ++ "- Practical scope for small teams\n"
  ++ "- Explicit notes that programmers / artists / QA can use\n"
  ++ "- A bit of creative flavor, but no meaningless buzzwords\n"
  ++ "\n"
  ++ "OUTPUT FORMAT:\n"
  ++ "Respond in Markdown. For each level, use this structure exactly:\n"
  ++ "\n"
  ++ "## Level \x7bN\x7d: \x7bShort Level Title\x7d\n"
  ++ "\n"
  ++ "### 1. Level Summary\n"
  ++ "- Genre:\n"
  ++ "- Camera:\n"
  ++ "- Recommended Stage Position: (Tutorial / Early / Mid / Late / Endgame)\n"
  ++ "- Target Playtime:\n"
  ++ "- Player Fantasy: (one sentence that captures the emotional fantasy)\n"
  ++ "- Design Pillars: (2–3 short bullet points that define the core experience)\n"
  ++ "\n"
  ++ "### 2. Core Objective & Failure\n"
  ++ "- Primary Objective:\n"
  ++ "- Secondary/Optional Objectives:\n"
  ++ "- Fail Conditions:\n"
  ++ "\n"
  ++ "### 3. Layout & Flow\n"
  ++ "- Layout Archetype: (e.g., Linear Corridor / Hub & Spoke / Looping Route / Branching / Arena)\n"
  ++ "- Zones:\n"
  ++ "  - Zone A (Intro / Warm-up):\n"
  ++ "  - Zone B (Main Challenge):\n"
  ++ "  - Zone C (Climax / Boss / Final Push):\n"
  ++ "  - Zone D (Cool-down / Reward Area) [optional]\n"
  ++ "- Flow Steps:\n"
  ++ "  1. ...\n"
  ++ "  2. ...\n"
  ++ "  3. ...\n"
  ++ "  4. ...\n"
  ++ "\n"
  ++ "### 4. Difficulty & Pacing\n"
  ++ "- Difficulty Curve: (describe Warm-up → Spike → Recovery → Climax)\n"
  ++ "- Pacing Notes: (combat/exploration/puzzle ratio, tension → release rhythm)\n"
  ++ "- Target Player Profile: (who this level is tuned for: casual / experienced / expert)\n"
  ++ "\n"
  ++ "### 5. Mechanics, Enemies & Hazards\n"
  ++ "- Core Mechanics Focus: (movement, dash, parry, stealth, platforming, etc.)\n"
  ++ "- Enemy / Hazard Roles:\n"
  ++ "  - Chaser:\n"
  ++ "  - Sniper:\n"
  ++ "  - Bruiser:\n"
  ++ "  - Support / Controller:\n"
  ++ "- Environmental Gimmicks:\n"
  ++ "- Suggested Combos of Mechanics + Gimmicks:\n"
  ++ "\n"
  ++ "### 6. Rewards & Optional Content\n"
  ++ "- Main Rewards:\n"
  ++ "- Optional / Secret Areas:\n"
  ++ "- Risk–Reward Notes:\n"
  ++ "\n"
  ++ "### 7. Narrative & Environment\n"
  ++ "- Narrative Hook: (what story/feeling this level conveys)\n"
  ++ "- Environmental Storytelling Ideas: (props, destroyed objects, notes, signs, etc.)\n"
  ++ "- Optional Dialogue / VO Hooks: (1–3 short example lines, if relevant)\n"
  ++ "\n"
  ++ "### 8. Scope & Production Notes\n"
  ++ "- Estimated Asset Requirements:\n"
  ++ "  - New Enemy Types:\n"
  ++ "  - New Gimmicks:\n"
  ++ "  - New Environment Pieces:\n"
  ++ "- Estimated Solo Dev Time: (rough days for a prototype)\n"
  ++ "- Scope Risk Notes: (what to cut first if time is short)\n"
  ++ "- Reuse Opportunities: (what can be reused from previous levels or packs)\n"
  ++ "\n"
  ++ "### 9. Playtest Checklist\n"
  ++ "- Clarity:\n"
  ++ "- Fairness:\n"
  ++ "- Pacing:\n"
  ++ "- Performance / Technical:\n"
  ++ "\n"
  ++ "### 10. Design Notes for Dev Team\n"
  ++ "- Tuning Tips: (how to adjust difficulty / pacing quickly)\n"
  ++ "- Implementation Risks: (what could break or take unexpectedly long)\n"
  ++ "- Recommended Prototype Order: (what to build first when time is limited)\n"
  ++ "\n"
  ++ "RULES:\n"
  ++ "- Always respect the requested genre, camera type, difficulty target and focus.\n"
  ++ "- Ideas must be implementable in common engines (Unity/Unreal/Godot/RPG Maker).\n"
  ++ "- Avoid overcomplicated systems that would kill solo dev scope.\n"
  ++ "- Keep language concise but concrete: no vague buzzwords.\n"
  ++ "- When \"creative direction / extra notes\" are provided, align the tone, pacing and motifs with them.\n"

/-- The `userPrompt` template literal of `src/unnamed/part_000` after its
trailing `.trim()` (same fixed-newline argument as for the other variant). -/
def userPromptStr (sc : Int) (genre camera stagePosition playtime difficulty focus theme notes : String) : String :=
  "Generate "
  ++ toString sc
  ++ " level blueprints.\n"
  ++ "\nGame context:\n- Genre: "
  ++ genre
  ++ "\n- Camera: "
  ++ camera
  ++ "\n- Target stage position: "
  ++ stagePosition
  ++ "\n- Target playtime: "
  ++ playtime
  ++ "\n- Target difficulty: "
  ++ difficulty
  ++ "\n- Primary focus: "
  ++ focus
  ++ "\n- Theme / setting keywords: "
  ++ theme
  ++ "\n\nCreative direction / extra notes from the designer:\n"
  ++ notes
  ++ "\n\nConstraints:\n- The blueprints should be suitable for an indie or small team.\n- Each level should feel distinct from the others.\n- Use the output structure defined in the system prompt.\n- Keep the tone professional (for internal design docs), but still readable."

/-- The `POST /api/level-blueprint` handler of `src/unnamed/part_000`; the
logic is line-for-line that of `src/server.js`, with this variant's
system-prompt constant and user-prompt template. -/
def handle (req : LevelRequest) (up : UpstreamResponse) : HttpResponse × Option OutboundCall :=
  if !(jsTruthy req.apiKey) then (credResp, none)
  else
    match jsTrim ("apiKey") req.apiKey with
    | .error msg => (⟨500, .errorDetail ("Server error") msg⟩, none)
    | .ok keyT =>
      if keyT = "" then (credResp, none)
      else if !(jsTruthy req.genre) || !(jsTruthy req.camera) || !(jsTruthy req.stagePosition)
          || !(jsTruthy req.playtime) || !(jsTruthy req.difficulty) || !(jsTruthy req.focus)
          || !(jsTruthy req.count) then
        (⟨400, .errorOnly ("Missing required fields")⟩, none)
      else
        match notesPart req.extraNotes with
        | .error msg => (⟨500, .errorDetail ("Server error") msg⟩, none)
        | .ok notes =>
          let call : OutboundCall :=
            { url := "https://api.openai.com/v1/chat/completions"
              method := "POST"
              authorization := "Bearer " ++ keyT
              contentType := "application/json"
              model := "gpt-4o-mini"
              messages :=
                [⟨"system", SYSTEM_PROMPT⟩,
                 ⟨"user", userPromptStr (safeCount req.count) (jsToString req.genre)
                    (jsToString req.camera) (jsToString req.stagePosition) (jsToString req.playtime)
                    (jsToString req.difficulty) (jsToString req.focus) (themeText req.themeKeywords) notes⟩]
              temperature := 7/10
              max_tokens := 2800 }
          if !up.ok then (⟨500, .errorDetail ("OpenAI API error") up.bodyText⟩, some call)
          else
            match extractContent up.data with
            | .error msg => (⟨500, .errorDetail ("Server error") msg⟩, some call)
            | .ok content => (⟨200, .contentBody content⟩, some call)

end Part000

/-- `sub` occurs contiguously inside `s`. -/
def containsSub (s sub : String) : Prop := ∃ a b, s = a ++ sub ++ b

/-- The `apiKey` shapes the spec calls "absent, empty, or whitespace-only
after trimming". -/
def blankKey (v : JsValue) : Prop :=
  v = .undefined ∨ v = .null ∨ ∃ s, v = .str s ∧ trimStr s = ""

/-- All seven required fields are truthy (the negation of the handlers'
missing-fields condition). -/
def requiredTruthy (req : LevelRequest) : Bool :=
  jsTruthy req.genre && jsTruthy req.camera && jsTruthy req.stagePosition && jsTruthy req.playtime
    && jsTruthy req.difficulty && jsTruthy req.focus && jsTruthy req.count

/-- `extraNotes` shapes on which prompt assembly cannot throw: a string, or a
falsy value. -/
def notesOk (v : JsValue) : Prop := (∃ t, v = .str t) ∨ jsTruthy v = false

/-- `extraNotes` shapes the spec calls "absent or blank". -/
def notesBlank (v : JsValue) : Prop :=
  jsTruthy v = false ∨ ∃ t, v = .str t ∧ trimStr t = ""

/-- A fully valid sample request used by the concrete witnesses. -/
def sampleReq : LevelRequest :=
  { apiKey := .str "sk-test"
    genre := .str "platformer"
    camera := .str "side-view"
    stagePosition := .str "Mid"
    playtime := .str "10 minutes"
    difficulty := .str "Hard"
    focus := .str "combat"
    themeKeywords := .undefined
    count := .num 3
    extraNotes := .undefined }

/-- Sample request with a whitespace-only `apiKey`. -/
def wsKeyReq : LevelRequest := { sampleReq with apiKey := .str "   " }

/-- Sample request missing both the `apiKey` and a required field. -/
def blankBothReq : LevelRequest := { sampleReq with apiKey := .undefined, genre := .undefined }

/-- Sample request whose `apiKey` is a truthy number. -/
def numKeyReq : LevelRequest := { sampleReq with apiKey := .num 12345 }

/-- Sample request with a valid key but a missing required field. -/
def noGenreReq : LevelRequest := { sampleReq with genre := .undefined }

/-- Sample request whose `count` arrives as the string `"7"`. -/
def strCountReq : LevelRequest := { sampleReq with count := .str "7" }

/-- Successful upstream response with a well-formed envelope. -/
def okUp : UpstreamResponse :=
  { ok := true
    bodyText := ""
    data := .obj [("choices", .arr [.obj [("message", .obj [("content", .str "hello")])]])] }

/-- Successful upstream response whose envelope lacks the message-content
path (`choices` is an empty array). -/
def missingUp : UpstreamResponse :=
  { ok := true
    bodyText := ""
    data := .obj [("choices", .arr [])] }

/-- Failed upstream response with the raw error body `"rate limited"`. -/
def failUp : UpstreamResponse :=
  { ok := false
    bodyText := "rate limited"
    data := .null }

namespace ServerJs

/-- The outbound call `src/server.js` makes on the valid path, described as a
function of the raw `apiKey` string and the request. -/
def callOf (s : String) (req : LevelRequest) : OutboundCall :=
  { url := "https://api.openai.com/v1/chat/completions"
    method := "POST"
    authorization := "Bearer " ++ trimStr s
    contentType := "application/json"
    model := "gpt-4o-mini"
    messages :=
      [⟨"system", SYSTEM_PROMPT⟩,
       ⟨"user", userPromptStr (safeCount req.count) (jsToString req.genre) (jsToString req.camera)
          (jsToString req.stagePosition) (jsToString req.playtime) (jsToString req.difficulty)
          (jsToString req.focus) (themeText req.themeKeywords) (notesTextPure req.extraNotes)⟩]
    temperature := 7/10
    max_tokens := 2800 }

end ServerJs

namespace Part000

/-- The outbound call `src/unnamed/part_000` makes on the valid path. -/
def callOf (s : String) (req : LevelRequest) : OutboundCall :=
  { url := "https://api.openai.com/v1/chat/completions"
    method := "POST"
    authorization := "Bearer " ++ trimStr s
    contentType := "application/json"
    model := "gpt-4o-mini"
    messages :=
      [⟨"system", SYSTEM_PROMPT⟩,
       ⟨"user", userPromptStr (safeCount req.count) (jsToString req.genre) (jsToString req.camera)
          (jsToString req.stagePosition) (jsToString req.playtime) (jsToString req.difficulty)
          (jsToString req.focus) (themeText req.themeKeywords) (notesTextPure req.extraNotes)⟩]
    temperature := 7/10
    max_tokens := 2800 }

end Part000

theorem trimStr_empty : trimStr "" = "" := rfl

theorem trimStr_ne_empty {s : String} (hs : trimStr s ≠ "") : s ≠ "" := by
  intro h
  exact hs (by rw [h]; exact trimStr_empty)

theorem server_handle_blank (req : LevelRequest) (up : UpstreamResponse)
    (h : blankKey req.apiKey) : ServerJs.handle req up = (credResp, none) := by
  rcases h with h | h | ⟨s, hks, hts⟩
  · unfold ServerJs.handle; rw [h]; rfl
  · unfold ServerJs.handle; rw [h]; rfl
  · unfold ServerJs.handle; rw [hks]
    by_cases hs : s = ""
    · subst hs; rfl
    · simp [jsTruthy, jsTrim, hs, hts]

theorem part0_handle_blank (req : LevelRequest) (up : UpstreamResponse)
    (h : blankKey req.apiKey) : Part000.handle req up = (credResp, none) := by
  rcases h with h | h | ⟨s, hks, hts⟩
  · unfold Part000.handle; rw [h]; rfl
  · unfold Part000.handle; rw [h]; rfl
  · unfold Part000.handle; rw [hks]
    by_cases hs : s = ""
    · subst hs; rfl
    · simp [jsTruthy, jsTrim, hs, hts]

theorem notesPart_eq (v : JsValue) (h : notesOk v) : notesPart v = .ok (notesTextPure v) := by
  rcases h with ⟨t, rfl⟩ | h
  · by_cases ht : t = ""
    · subst ht; rfl
    · simp [notesPart, notesTextPure, jsTruthy, ht]
  · cases v <;> simp_all [notesPart, notesTextPure, jsTruthy, trimStr_empty]

theorem jsTruthy_str_true {s : String} (hs : s ≠ "") : jsTruthy (.str s) = true := by
  simp [jsTruthy, hs]

theorem server_handle_missing (req : LevelRequest) (up : UpstreamResponse) (s : String)
    (hk : req.apiKey = .str s) (hs : trimStr s ≠ "")
    (h : jsTruthy req.genre = false ∨ jsTruthy req.camera = false ∨ jsTruthy req.stagePosition = false
      ∨ jsTruthy req.playtime = false ∨ jsTruthy req.difficulty = false ∨ jsTruthy req.focus = false
      ∨ jsTruthy req.count = false) :
    ServerJs.handle req up = (⟨400, .errorOnly ("Missing required fields")⟩, none) := by
  have hkey := jsTruthy_str_true (trimStr_ne_empty hs)
  unfold ServerJs.handle
  rw [hk]
  rcases h with h | h | h | h | h | h | h <;> simp [hkey, jsTrim, hs, h]

theorem part0_handle_missing (req : LevelRequest) (up : UpstreamResponse) (s : String)
    (hk : req.apiKey = .str s) (hs : trimStr s ≠ "")
    (h : jsTruthy req.genre = false ∨ jsTruthy req.camera = false ∨ jsTruthy req.stagePosition = false
      ∨ jsTruthy req.playtime = false ∨ jsTruthy req.difficulty = false ∨ jsTruthy req.focus = false
      ∨ jsTruthy req.count = false) :
    Part000.handle req up = (⟨400, .errorOnly ("Missing required fields")⟩, none) := by
  have hkey := jsTruthy_str_true (trimStr_ne_empty hs)
  unfold Part000.handle
  rw [hk]
  rcases h with h | h | h | h | h | h | h <;> simp [hkey, jsTrim, hs, h]

theorem server_handle_valid (req : LevelRequest) (up : UpstreamResponse) (s : String)
    (hk : req.apiKey = .str s) (hs : trimStr s ≠ "")
    (hf : requiredTruthy req = true) (hn : notesOk req.extraNotes) :
    ServerJs.handle req up = (tailResp up, some (ServerJs.callOf s req)) := by
  have hkey := jsTruthy_str_true (trimStr_ne_empty hs)
  simp only [requiredTruthy, Bool.and_eq_true] at hf
  obtain ⟨⟨⟨⟨⟨⟨h1, h2⟩, h3⟩, h4⟩, h5⟩, h6⟩, h7⟩ := hf
  unfold ServerJs.handle
  rw [hk, notesPart_eq _ hn]
  simp [hkey, jsTrim, hs, h1, h2, h3, h4, h5, h6, h7, tailResp, ServerJs.callOf]
  cases hok : up.ok
  · simp [hok]
  · simp [hok]
    cases hext : extractContent up.data <;> simp [hext]

theorem part0_handle_valid (req : LevelRequest) (up : UpstreamResponse) (s : String)
    (hk : req.apiKey = .str s) (hs : trimStr s ≠ "")
    (hf : requiredTruthy req = true) (hn : notesOk req.extraNotes) :
    Part000.handle req up = (tailResp up, some (Part000.callOf s req)) := by
  have hkey := jsTruthy_str_true (trimStr_ne_empty hs)
  simp only [requiredTruthy, Bool.and_eq_true] at hf
  obtain ⟨⟨⟨⟨⟨⟨h1, h2⟩, h3⟩, h4⟩, h5⟩, h6⟩, h7⟩ := hf
  unfold Part000.handle
  rw [hk, notesPart_eq _ hn]
  simp [hkey, jsTrim, hs, h1, h2, h3, h4, h5, h6, h7, tailResp, Part000.callOf]
  cases hok : up.ok
  · simp [hok]
  · simp [hok]
    cases hext : extractContent up.data <;> simp [hext]

theorem server_handle_called (req : LevelRequest) (up : UpstreamResponse) :
    (ServerJs.handle req up).2.isSome = true → (ServerJs.handle req up).1 = tailResp up := by
  unfold ServerJs.handle
  repeat' split
  all_goals intro h
  all_goals simp_all [tailResp]

theorem part0_handle_called (req : LevelRequest) (up : UpstreamResponse) :
    (Part000.handle req up).2.isSome = true → (Part000.handle req up).1 = tailResp up := by
  unfold Part000.handle
  repeat' split
  all_goals intro h
  all_goals simp_all [tailResp]

theorem clampRange (x : Int) : 1 ≤ min (max x 1) 10 ∧ min (max x 1) 10 ≤ 10 := by
  constructor <;> omega

/-- C2: for every request whose `apiKey` is absent (`undefined` or `null`),
empty, or whitespace-only after trimming, both variants reply `400` with the
credential-missing body — an `error` field plus a `message` instructing the
caller to send the key in the `apiKey` field — and the upstream call is never
attempted (the call component is `none`). -/
theorem C2_blank_apiKey_rejected (req : LevelRequest) (up : UpstreamResponse)
    (h : blankKey req.apiKey) :
    ServerJs.handle req up
        = (⟨400, .errorMessage ("No API key provided") ("Please send your OpenAI API key in the \x27apiKey\x27 field.")⟩, none)
      ∧ Part000.handle req up
        = (⟨400, .errorMessage ("No API key provided") ("Please send your OpenAI API key in the \x27apiKey\x27 field.")⟩, none) :=
  ⟨server_handle_blank req up h, part0_handle_blank req up h⟩

/-- Witness for C2 at a whitespace-only `apiKey`. -/
theorem C2_blank_apiKey_rejected_witness :
    ServerJs.handle wsKeyReq failUp
        = (⟨400, .errorMessage ("No API key provided") ("Please send your OpenAI API key in the \x27apiKey\x27 field.")⟩, none)
      ∧ Part000.handle wsKeyReq failUp
        = (⟨400, .errorMessage ("No API key provided") ("Please send your OpenAI API key in the \x27apiKey\x27 field.")⟩, none) :=
  C2_blank_apiKey_rejected wsKeyReq failUp (Or.inr (Or.inr ⟨"   ", rfl, by decide⟩))

/-- C3: with a non-blank string `apiKey` but any of the seven required fields
(`genre`, `camera`, `stagePosition`, `playtime`, `difficulty`, `focus`,
`count`) absent or otherwise falsy, both variants reply `400` with body
exactly `{ error: "Missing required fields" }` and never call upstream. -/
theorem C3_missing_fields_rejected (req : LevelRequest) (up : UpstreamResponse) (s : String)
    (hk : req.apiKey = .str s) (hs : trimStr s ≠ "")
    (h : jsTruthy req.genre = false ∨ jsTruthy req.camera = false ∨ jsTruthy req.stagePosition = false
      ∨ jsTruthy req.playtime = false ∨ jsTruthy req.difficulty = false ∨ jsTruthy req.focus = false
      ∨ jsTruthy req.count = false) :
    ServerJs.handle req up = (⟨400, .errorOnly ("Missing required fields")⟩, none)
      ∧ Part000.handle req up = (⟨400, .errorOnly ("Missing required fields")⟩, none) :=
  ⟨server_handle_missing req up s hk hs h, part0_handle_missing req up s hk hs h⟩

/-- Witness for C3 at a request with a valid key and an absent `genre`. -/
theorem C3_missing_fields_rejected_witness :
    ServerJs.handle noGenreReq failUp = (⟨400, .errorOnly ("Missing required fields")⟩, none)
      ∧ Part000.handle noGenreReq failUp = (⟨400, .errorOnly ("Missing required fields")⟩, none) :=
  C3_missing_fields_rejected noGenreReq failUp ("sk-test") rfl (by decide) (Or.inl rfl)

/-- C7: validation is ordered and fail-fast — on a request missing both the
`apiKey` and at least one other required field, both variants reply with the
credential-missing `400`, never with the missing-fields `400`. -/
theorem C7_credential_check_first (req : LevelRequest) (up : UpstreamResponse)
    (hkey : blankKey req.apiKey)
    (_hfields : jsTruthy req.genre = false ∨ jsTruthy req.camera = false ∨ jsTruthy req.stagePosition = false
      ∨ jsTruthy req.playtime = false ∨ jsTruthy req.difficulty = false ∨ jsTruthy req.focus = false
      ∨ jsTruthy req.count = false) :
    (ServerJs.handle req up = (credResp, none)
      ∧ (ServerJs.handle req up).1.body ≠ Body.errorOnly ("Missing required fields"))
    ∧ (Part000.handle req up = (credResp, none)
      ∧ (Part000.handle req up).1.body ≠ Body.errorOnly ("Missing required fields")) := by
  have h1 := server_handle_blank req up hkey
  have h2 := part0_handle_blank req up hkey
  refine ⟨⟨h1, ?_⟩, ⟨h2, ?_⟩⟩
  · rw [h1]; simp [credResp]
  · rw [h2]; simp [credResp]

/-- Witness for C7 at a request missing both the key and the genre. -/
theorem C7_credential_check_first_witness :
    (ServerJs.handle blankBothReq failUp = (credResp, none)
      ∧ (ServerJs.handle blankBothReq failUp).1.body ≠ Body.errorOnly ("Missing required fields"))
    ∧ (Part000.handle blankBothReq failUp = (credResp, none)
      ∧ (Part000.handle blankBothReq failUp).1.body ≠ Body.errorOnly ("Missing required fields")) :=
  C7_credential_check_first blankBothReq failUp (Or.inl rfl) (Or.inl rfl)

/-- C9: a truthy non-string `apiKey` (here, a non-zero number) is not caught
by the credential validation: `apiKey.trim()` throws a `TypeError`, the
catch-all runs, and the caller gets `500` with
`{ error: "Server error", detail: <the TypeError message> }` — not a `400`
validation reply — and no upstream call is made, in both variants. -/
theorem C9_nonstring_apiKey_500 (req : LevelRequest) (up : UpstreamResponse) (n : Int)
    (hk : req.apiKey = .num n) (hn : n ≠ 0) :
    (ServerJs.handle req up
        = (⟨500, .errorDetail ("Server error") ("apiKey.trim is not a function")⟩, none)
      ∧ (ServerJs.handle req up).1.status ≠ 400)
    ∧ (Part000.handle req up
        = (⟨500, .errorDetail ("Server error") ("apiKey.trim is not a function")⟩, none)
      ∧ (Part000.handle req up).1.status ≠ 400) := by
  have hkey : jsTruthy (.num n) = true := by simp [jsTruthy, hn]
  have e1 : ServerJs.handle req up
      = (⟨500, .errorDetail ("Server error") ("apiKey.trim is not a function")⟩, none) := by
    unfold ServerJs.handle
    rw [hk, hkey]
    rfl
  have e2 : Part000.handle req up
      = (⟨500, .errorDetail ("Server error") ("apiKey.trim is not a function")⟩, none) := by
    unfold Part000.handle
    rw [hk, hkey]
    rfl
  refine ⟨⟨e1, ?_⟩, ⟨e2, ?_⟩⟩
  · rw [e1]; decide
  · rw [e2]; decide

/-- Witness for C9 at a numeric `apiKey`. -/
theorem C9_nonstring_apiKey_500_witness :
    (ServerJs.handle numKeyReq okUp
        = (⟨500, .errorDetail ("Server error") ("apiKey.trim is not a function")⟩, none)
      ∧ (ServerJs.handle numKeyReq okUp).1.status ≠ 400)
    ∧ (Part000.handle numKeyReq okUp
        = (⟨500, .errorDetail ("Server error") ("apiKey.trim is not a function")⟩, none)
      ∧ (Part000.handle numKeyReq okUp).1.status ≠ 400) :=
  C9_nonstring_apiKey_500 numKeyReq okUp 12345 rfl (by decide)

theorem tailResp_chain_none (up : UpstreamResponse) (hok : up.ok = true)
    (h : chainPath up.data = .ok none) : tailResp up = ⟨200, .contentBody (.str (""))⟩ := by
  simp [tailResp, hok, extractContent, h, jsOrEmpty]

theorem tailResp_chain_str (up : UpstreamResponse) (t : String) (hok : up.ok = true)
    (h : chainPath up.data = .ok (some (.str t))) : tailResp up = ⟨200, .contentBody (.str t)⟩ := by
  by_cases ht : t = ""
  · subst ht
    simp [tailResp, hok, extractContent, h, jsOrEmpty, jsonTruthy]
  · simp [tailResp, hok, extractContent, h, jsOrEmpty, jsonTruthy, ht]

/-- C4: on a successful upstream response (in either variant, whenever the
upstream call was made): if the optional chain
`choices[0].message.content` resolves to nothing, the service still replies
`200` with `content` equal to the empty string; if the chain resolves to
string content, the service replies `200` with `content` exactly equal to that
text, unmodified. -/
theorem C4_content_extraction (req : LevelRequest) (up : UpstreamResponse)
    (hok : up.ok = true) :
    ((ServerJs.handle req up).2.isSome = true →
      (chainPath up.data = .ok none →
        (ServerJs.handle req up).1 = ⟨200, .contentBody (.str (""))⟩)
      ∧ (∀ t, chainPath up.data = .ok (some (.str t)) →
        (ServerJs.handle req up).1 = ⟨200, .contentBody (.str t)⟩))
    ∧ ((Part000.handle req up).2.isSome = true →
      (chainPath up.data = .ok none →
        (Part000.handle req up).1 = ⟨200, .contentBody (.str (""))⟩)
      ∧ (∀ t, chainPath up.data = .ok (some (.str t)) →
        (Part000.handle req up).1 = ⟨200, .contentBody (.str t)⟩)) := by
  constructor <;> intro h
  · rw [server_handle_called req up h]
    exact ⟨fun hch => tailResp_chain_none up hok hch, fun t hch => tailResp_chain_str up t hok hch⟩
  · rw [part0_handle_called req up h]
    exact ⟨fun hch => tailResp_chain_none up hok hch, fun t hch => tailResp_chain_str up t hok hch⟩

/-- Witness for C4: an envelope with an empty `choices` array degrades to
`content: ""`, and a well-formed envelope passes `"hello"` through, in both
variants. -/
theorem C4_content_extraction_witness :
    (ServerJs.handle sampleReq missingUp).1 = ⟨200, .contentBody (.str (""))⟩
    ∧ (ServerJs.handle sampleReq okUp).1 = ⟨200, .contentBody (.str ("hello"))⟩
    ∧ (Part000.handle sampleReq missingUp).1 = ⟨200, .contentBody (.str (""))⟩
    ∧ (Part000.handle sampleReq okUp).1 = ⟨200, .contentBody (.str ("hello"))⟩ :=
  ⟨((C4_content_extraction sampleReq missingUp rfl).1 rfl).1 rfl,
   ((C4_content_extraction sampleReq okUp rfl).1 rfl).2 ("hello") rfl,
   ((C4_content_extraction sampleReq missingUp rfl).2 rfl).1 rfl,
   ((C4_content_extraction sampleReq okUp rfl).2 rfl).2 ("hello") rfl⟩

/-- C6: whenever the upstream call was made and completed with a non-success
status, both variants reply `500` with body
`{ error: "OpenAI API error", detail: <the verbatim upstream error body> }`. -/
theorem C6_upstream_error_passthrough (req : LevelRequest) (up : UpstreamResponse)
    (hup : up.ok = false) :
    ((ServerJs.handle req up).2.isSome = true →
      (ServerJs.handle req up).1 = ⟨500, .errorDetail ("OpenAI API error") up.bodyText⟩)
    ∧ ((Part000.handle req up).2.isSome = true →
      (Part000.handle req up).1 = ⟨500, .errorDetail ("OpenAI API error") up.bodyText⟩) := by
  constructor <;> intro h
  · rw [server_handle_called req up h]
    simp [tailResp, hup]
  · rw [part0_handle_called req up h]
    simp [tailResp, hup]

/-- Witness for C6: an upstream failure whose body is `"rate limited"` is
relayed with `detail` exactly `"rate limited"`, in both variants. -/
theorem C6_upstream_error_passthrough_witness :
    (ServerJs.handle sampleReq failUp).1 = ⟨500, .errorDetail ("OpenAI API error") ("rate limited")⟩
    ∧ (Part000.handle sampleReq failUp).1 = ⟨500, .errorDetail ("OpenAI API error") ("rate limited")⟩ :=
  ⟨(C6_upstream_error_passthrough sampleReq failUp rfl).1 rfl,
   (C6_upstream_error_passthrough sampleReq failUp rfl).2 rfl⟩

theorem containsSub_last (a x : String) : containsSub (a ++ x) x :=
  ⟨a, "", by rw [String.append_empty]⟩

theorem containsSub_extendR {s x : String} (t : String) (h : containsSub s x) :
    containsSub (s ++ t) x := by
  obtain ⟨a, b, rfl⟩ := h
  exact ⟨a, b ++ t, by simp [String.append_assoc]⟩

theorem containsSub_extendL {s x : String} (t : String) (h : containsSub s x) :
    containsSub (t ++ s) x := by
  obtain ⟨a, b, rfl⟩ := h
  exact ⟨t ++ a, b, by simp [String.append_assoc]⟩

theorem server_call_inv (req : LevelRequest) (up : UpstreamResponse) (c : OutboundCall)
    (h : (ServerJs.handle req up).2 = some c) :
    ∃ keyT notes,
      c = { url := "https://api.openai.com/v1/chat/completions"
            method := "POST"
            authorization := "Bearer " ++ keyT
            contentType := "application/json"
            model := "gpt-4o-mini"
            messages :=
              [⟨"system", ServerJs.SYSTEM_PROMPT⟩,
               ⟨"user", ServerJs.userPromptStr (safeCount req.count) (jsToString req.genre)
                  (jsToString req.camera) (jsToString req.stagePosition) (jsToString req.playtime)
                  (jsToString req.difficulty) (jsToString req.focus) (themeText req.themeKeywords) notes⟩]
            temperature := 7/10
            max_tokens := 2800 } := by
  unfold ServerJs.handle at h
  repeat' split at h
  all_goals simp_all
  all_goals exact ⟨_, _, h.symm⟩

theorem part0_call_inv (req : LevelRequest) (up : UpstreamResponse) (c : OutboundCall)
    (h : (Part000.handle req up).2 = some c) :
    ∃ keyT notes,
      c = { url := "https://api.openai.com/v1/chat/completions"
            method := "POST"
            authorization := "Bearer " ++ keyT
            contentType := "application/json"
            model := "gpt-4o-mini"
            messages :=
              [⟨"system", Part000.SYSTEM_PROMPT⟩,
               ⟨"user", Part000.userPromptStr (safeCount req.count) (jsToString req.genre)
                  (jsToString req.camera) (jsToString req.stagePosition) (jsToString req.playtime)
                  (jsToString req.difficulty) (jsToString req.focus) (themeText req.themeKeywords) notes⟩]
            temperature := 7/10
            max_tokens := 2800 } := by
  unfold Part000.handle at h
  repeat' split at h
  all_goals simp_all
  all_goals exact ⟨_, _, h.symm⟩

/-- C1: the count used in the prompt is the normalization
`Math.min(Math.max(parseInt(count, 10) || 1, 1), 10)` of the supplied
`count`: it maps `0`, a negative number, a non-numeric string, and an absent
value to `1`; `15` to `10`; `5` to itself; the string `"7"` to `7`; it always
lies in the closed range `[1, 10]`; and every request that passes validation
(i.e. on which an upstream call is made, in either variant) gets a user
prompt opening with `Generate <safeCount count> level blueprints.`. -/
theorem C1_count_normalization :
    (safeCount (.num 0) = 1 ∧ safeCount (.num (-4)) = 1 ∧ safeCount (.str ("abc")) = 1
      ∧ safeCount .undefined = 1 ∧ safeCount (.num 15) = 10 ∧ safeCount (.num 5) = 5
      ∧ safeCount (.str ("7")) = 7)
    ∧ (∀ v : JsValue, 1 ≤ safeCount v ∧ safeCount v ≤ 10)
    ∧ (∀ (req : LevelRequest) (up : UpstreamResponse) (c : OutboundCall),
        (ServerJs.handle req up).2 = some c →
        ∃ p rest, c.messages = [⟨"system", ServerJs.SYSTEM_PROMPT⟩, ⟨"user", p⟩]
          ∧ p = "Generate " ++ toString (safeCount req.count) ++ " level blueprints.\n" ++ rest)
    ∧ (∀ (req : LevelRequest) (up : UpstreamResponse) (c : OutboundCall),
        (Part000.handle req up).2 = some c →
        ∃ p rest, c.messages = [⟨"system", Part000.SYSTEM_PROMPT⟩, ⟨"user", p⟩]
          ∧ p = "Generate " ++ toString (safeCount req.count) ++ " level blueprints.\n" ++ rest) := by
  refine ⟨⟨by decide, by decide, by decide, by decide, by decide, by decide, by decide⟩,
    fun v => clampRange _, fun req up c h => ?_, fun req up c h => ?_⟩
  · obtain ⟨keyT, notes, rfl⟩ := server_call_inv req up c h
    refine ⟨_, "\nGame context:\n- Genre: " ++ jsToString req.genre ++ "\n- Camera: "
        ++ jsToString req.camera ++ "\n- Target stage position: " ++ jsToString req.stagePosition
        ++ "\n- Target playtime: " ++ jsToString req.playtime ++ "\n- Target difficulty: "
        ++ jsToString req.difficulty ++ "\n- Primary focus: " ++ jsToString req.focus
        ++ "\n- Theme / setting keywords: " ++ themeText req.themeKeywords
        ++ "\n\nCreative direction / extra notes from the designer:\n" ++ notes
        ++ "\n\nConstraints:\n- The blueprints should be suitable for an indie or small team.\n- Each level should feel distinct from the others.\n- Use the output structure defined in the system prompt.\n- Keep the tone professional (for internal design docs), but still readable."
        ++ layoutTail, rfl, ?_⟩
    simp only [ServerJs.userPromptStr, String.append_assoc]
  · obtain ⟨keyT, notes, rfl⟩ := part0_call_inv req up c h
    refine ⟨_, "\nGame context:\n- Genre: " ++ jsToString req.genre ++ "\n- Camera: "
        ++ jsToString req.camera ++ "\n- Target stage position: " ++ jsToString req.stagePosition
        ++ "\n- Target playtime: " ++ jsToString req.playtime ++ "\n- Target difficulty: "
        ++ jsToString req.difficulty ++ "\n- Primary focus: " ++ jsToString req.focus
        ++ "\n- Theme / setting keywords: " ++ themeText req.themeKeywords
        ++ "\n\nCreative direction / extra notes from the designer:\n" ++ notes
        ++ "\n\nConstraints:\n- The blueprints should be suitable for an indie or small team.\n- Each level should feel distinct from the others.\n- Use the output structure defined in the system prompt.\n- Keep the tone professional (for internal design docs), but still readable.",
        rfl, ?_⟩
    simp only [Part000.userPromptStr, String.append_assoc]

/-- Witness for C1's quantified part, at a request whose `count` arrives as
the string `"7"`. -/
theorem C1_count_normalization_witness :
    ∃ p rest,
      (ServerJs.callOf ("sk-test") strCountReq).messages
          = [⟨"system", ServerJs.SYSTEM_PROMPT⟩, ⟨"user", p⟩]
        ∧ p = "Generate " ++ toString (safeCount strCountReq.count) ++ " level blueprints.\n" ++ rest :=
  C1_count_normalization.2.2.1 strCountReq okUp (ServerJs.callOf ("sk-test") strCountReq)
    (by rw [server_handle_valid strCountReq okUp ("sk-test") rfl (by decide) (by decide) (Or.inr rfl)])

/-- C8: on every valid request (non-blank string key, all required fields
truthy, `extraNotes` a string or absent), each variant makes exactly one
outbound call — the call component of the result is `some` — and that call
carries the fixed URL and method, the `Authorization` header bearing the
caller's trimmed key, the fixed model identifier, temperature exactly `0.7`,
`max_tokens` exactly `2800`, and a two-message array: the fixed system prompt
followed by the synthesized user prompt. -/
theorem C8_outbound_call_fixed (req : LevelRequest) (up : UpstreamResponse) (s : String)
    (hk : req.apiKey = .str s) (hs : trimStr s ≠ "")
    (hf : requiredTruthy req = true) (hn : notesOk req.extraNotes) :
    (∃ c, (ServerJs.handle req up).2 = some c
      ∧ c.url = "https://api.openai.com/v1/chat/completions"
      ∧ c.method = "POST"
      ∧ c.authorization = "Bearer " ++ trimStr s
      ∧ c.contentType = "application/json"
      ∧ c.model = "gpt-4o-mini"
      ∧ c.temperature = 7/10
      ∧ c.max_tokens = 2800
      ∧ ∃ p, c.messages = [⟨"system", ServerJs.SYSTEM_PROMPT⟩, ⟨"user", p⟩])
    ∧ (∃ c, (Part000.handle req up).2 = some c
      ∧ c.url = "https://api.openai.com/v1/chat/completions"
      ∧ c.method = "POST"
      ∧ c.authorization = "Bearer " ++ trimStr s
      ∧ c.contentType = "application/json"
      ∧ c.model = "gpt-4o-mini"
      ∧ c.temperature = 7/10
      ∧ c.max_tokens = 2800
      ∧ ∃ p, c.messages = [⟨"system", Part000.SYSTEM_PROMPT⟩, ⟨"user", p⟩]) := by
  refine ⟨⟨ServerJs.callOf s req, ?_, rfl, rfl, rfl, rfl, rfl, rfl, rfl, ⟨_, rfl⟩⟩,
    ⟨Part000.callOf s req, ?_, rfl, rfl, rfl, rfl, rfl, rfl, rfl, ⟨_, rfl⟩⟩⟩
  · rw [server_handle_valid req up s hk hs hf hn]
  · rw [part0_handle_valid req up s hk hs hf hn]

/-- Witness for C8 at the sample request (the `src/server.js` variant). -/
theorem C8_outbound_call_fixed_witness :
    ∃ c, (ServerJs.handle sampleReq okUp).2 = some c
      ∧ c.url = "https://api.openai.com/v1/chat/completions"
      ∧ c.method = "POST"
      ∧ c.authorization = "Bearer " ++ trimStr ("sk-test")
      ∧ c.contentType = "application/json"
      ∧ c.model = "gpt-4o-mini"
      ∧ c.temperature = 7/10
      ∧ c.max_tokens = 2800
      ∧ ∃ p, c.messages = [⟨"system", ServerJs.SYSTEM_PROMPT⟩, ⟨"user", p⟩] :=
  (C8_outbound_call_fixed sampleReq okUp ("sk-test") rfl (by decide) (by decide) (Or.inr rfl)).1

theorem notesTextPure_blank (v : JsValue) (h : notesBlank v) :
    notesTextPure v = "No additional notes." := by
  rcases h with h | ⟨t, rfl, ht⟩
  · cases v <;> simp_all [notesTextPure, jsTruthy, trimStr_empty]
  · simp [notesTextPure, ht]

/-- C5: on every fully valid request, the user prompt sent upstream (in each
variant) contains the literal interpolation of every supplied field and of
the normalized count; when `extraNotes` is absent or blank the prompt
contains the sentinel `No additional notes.`, and when `themeKeywords` is
absent it contains the sentinel `none`. -/
theorem C5_prompt_contains_fields (req : LevelRequest) (up : UpstreamResponse) (s : String)
    (hk : req.apiKey = .str s) (hs : trimStr s ≠ "")
    (hf : requiredTruthy req = true) (hn : notesOk req.extraNotes) :
    (∃ c p, (ServerJs.handle req up).2 = some c
      ∧ c.messages = [⟨"system", ServerJs.SYSTEM_PROMPT⟩, ⟨"user", p⟩]
      ∧ containsSub p (jsToString req.genre)
      ∧ containsSub p (jsToString req.camera)
      ∧ containsSub p (jsToString req.stagePosition)
      ∧ containsSub p (jsToString req.playtime)
      ∧ containsSub p (jsToString req.difficulty)
      ∧ containsSub p (jsToString req.focus)
      ∧ containsSub p (toString (safeCount req.count))
      ∧ (notesBlank req.extraNotes → containsSub p ("No additional notes."))
      ∧ (req.themeKeywords = .undefined → containsSub p ("none")))
    ∧ (∃ c p, (Part000.handle req up).2 = some c
      ∧ c.messages = [⟨"system", Part000.SYSTEM_PROMPT⟩, ⟨"user", p⟩]
      ∧ containsSub p (jsToString req.genre)
      ∧ containsSub p (jsToString req.camera)
      ∧ containsSub p (jsToString req.stagePosition)
      ∧ containsSub p (jsToString req.playtime)
      ∧ containsSub p (jsToString req.difficulty)
      ∧ containsSub p (jsToString req.focus)
      ∧ containsSub p (toString (safeCount req.count))
      ∧ (notesBlank req.extraNotes → containsSub p ("No additional notes."))
      ∧ (req.themeKeywords = .undefined → containsSub p ("none"))) := by
  constructor
  · refine ⟨ServerJs.callOf s req, _, by rw [server_handle_valid req up s hk hs hf hn], rfl,
      ?_, ?_, ?_, ?_, ?_, ?_, ?_, ?_, ?_⟩
    case _ =>
      simp only [ServerJs.userPromptStr]
      repeat first
        | exact containsSub_last _ _
        | apply containsSub_extendR
    case _ =>
      simp only [ServerJs.userPromptStr]
      repeat first
        | exact containsSub_last _ _
        | apply containsSub_extendR
    case _ =>
      simp only [ServerJs.userPromptStr]
      repeat first
        | exact containsSub_last _ _
        | apply containsSub_extendR
    case _ =>
      simp only [ServerJs.userPromptStr]
      repeat first
        | exact containsSub_last _ _
        | apply containsSub_extendR
    case _ =>
      simp only [ServerJs.userPromptStr]
      repeat first
        | exact containsSub_last _ _
        | apply containsSub_extendR
    case _ =>
      simp only [ServerJs.userPromptStr]
      repeat first
        | exact containsSub_last _ _
        | apply containsSub_extendR
    case _ =>
      simp only [ServerJs.userPromptStr]
      repeat first
        | exact containsSub_last _ _
        | apply containsSub_extendR
    case _ =>
      intro hb
      have hnp := notesTextPure_blank req.extraNotes hb
      simp only [ServerJs.userPromptStr, hnp]
      repeat first
        | exact containsSub_last _ _
        | apply containsSub_extendR
    case _ =>
      intro hthm
      have ht : themeText req.themeKeywords = "none" := by rw [hthm]; rfl
      simp only [ServerJs.userPromptStr, ht]
      repeat first
        | exact containsSub_last _ _
        | apply containsSub_extendR
  · refine ⟨Part000.callOf s req, _, by rw [part0_handle_valid req up s hk hs hf hn], rfl,
      ?_, ?_, ?_, ?_, ?_, ?_, ?_, ?_, ?_⟩
    case _ =>
      simp only [Part000.userPromptStr]
      repeat first
        | exact containsSub_last _ _
        | apply containsSub_extendR
    case _ =>
      simp only [Part000.userPromptStr]
      repeat first
        | exact containsSub_last _ _
        | apply containsSub_extendR
    case _ =>
      simp only [Part000.userPromptStr]
      repeat first
        | exact containsSub_last _ _
        | apply containsSub_extendR
    case _ =>
      simp only [Part000.userPromptStr]
      repeat first
        | exact containsSub_last _ _
        | apply containsSub_extendR
    case _ =>
      simp only [Part000.userPromptStr]
      repeat first
        | exact containsSub_last _ _
        | apply containsSub_extendR
    case _ =>
      simp only [Part000.userPromptStr]
      repeat first
        | exact containsSub_last _ _
        | apply containsSub_extendR
    case _ =>
      simp only [Part000.userPromptStr]
      repeat first
        | exact containsSub_last _ _
        | apply containsSub_extendR
    case _ =>
      intro hb
      have hnp := notesTextPure_blank req.extraNotes hb
      simp only [Part000.userPromptStr, hnp]
      repeat first
        | exact containsSub_last _ _
        | apply containsSub_extendR
    case _ =>
      intro hthm
      have ht : themeText req.themeKeywords = "none" := by rw [hthm]; rfl
      simp only [Part000.userPromptStr, ht]
      repeat first
        | exact containsSub_last _ _
        | apply containsSub_extendR

/-- Witness for C5 at the sample request (the `src/server.js` variant). -/
theorem C5_prompt_contains_fields_witness :
    ∃ c p, (ServerJs.handle sampleReq okUp).2 = some c
      ∧ c.messages = [⟨"system", ServerJs.SYSTEM_PROMPT⟩, ⟨"user", p⟩]
      ∧ containsSub p (jsToString sampleReq.genre)
      ∧ containsSub p (jsToString sampleReq.camera)
      ∧ containsSub p (jsToString sampleReq.stagePosition)
      ∧ containsSub p (jsToString sampleReq.playtime)
      ∧ containsSub p (jsToString sampleReq.difficulty)
      ∧ containsSub p (jsToString sampleReq.focus)
      ∧ containsSub p (toString (safeCount sampleReq.count))
      ∧ (notesBlank sampleReq.extraNotes → containsSub p ("No additional notes."))
      ∧ (sampleReq.themeKeywords = .undefined → containsSub p ("none")) :=
  (C5_prompt_contains_fields sampleReq okUp ("sk-test") rfl (by decide) (by decide) (Or.inr rfl)).1

/-- C10: the two service variants are behaviorally equivalent — on every
request/upstream pair they produce the same status and body, one attempts the
upstream call exactly when the other does, and their outbound calls agree on
URL, method, headers, model, temperature and `max_tokens`, differing only in
the system-prompt constant and in the extra constraint paragraph
(`layoutTail`) that `src/server.js` appends to the shared user prompt. -/
theorem C10_variants_equivalent (req : LevelRequest) (up : UpstreamResponse) :
    (ServerJs.handle req up).1 = (Part000.handle req up).1
    ∧ (ServerJs.handle req up).2.isSome = (Part000.handle req up).2.isSome
    ∧ (∀ c1 c2, (ServerJs.handle req up).2 = some c1 → (Part000.handle req up).2 = some c2 →
        c1.url = c2.url ∧ c1.method = c2.method ∧ c1.authorization = c2.authorization
        ∧ c1.contentType = c2.contentType ∧ c1.model = c2.model
        ∧ c1.temperature = c2.temperature ∧ c1.max_tokens = c2.max_tokens
        ∧ ∃ p, c2.messages = [⟨"system", Part000.SYSTEM_PROMPT⟩, ⟨"user", p⟩]
            ∧ c1.messages = [⟨"system", ServerJs.SYSTEM_PROMPT⟩, ⟨"user", p ++ layoutTail⟩]) := by
  cases h1 : jsTruthy req.apiKey
  case false => simp [ServerJs.handle, Part000.handle, h1]
  case true =>
  cases h2 : jsTrim ("apiKey") req.apiKey with
  | error m => simp [ServerJs.handle, Part000.handle, h1, h2]
  | ok keyT =>
  by_cases h3 : keyT = ""
  case pos => simp [ServerJs.handle, Part000.handle, h1, h2, h3]
  case neg =>
  cases h4 : (!jsTruthy req.genre || !jsTruthy req.camera || !jsTruthy req.stagePosition
      || !jsTruthy req.playtime || !jsTruthy req.difficulty || !jsTruthy req.focus
      || !jsTruthy req.count)
  case true => simp [ServerJs.handle, Part000.handle, h1, h2, h3, h4]
  case false =>
  cases h5 : notesPart req.extraNotes with
  | error m => simp [ServerJs.handle, Part000.handle, h1, h2, h3, h4, h5]
  | ok notes =>
  cases h6 : up.ok
  case false =>
    refine ⟨?_, ?_, fun c1 c2 hc1 hc2 => ?_⟩
    · simp [ServerJs.handle, Part000.handle, h1, h2, h3, h4, h5, h6]
    · simp [ServerJs.handle, Part000.handle, h1, h2, h3, h4, h5, h6]
    · simp [ServerJs.handle, Part000.handle, h1, h2, h3, h4, h5, h6] at hc1 hc2
      subst hc1
      subst hc2
      exact ⟨rfl, rfl, rfl, rfl, rfl, rfl, rfl,
        Part000.userPromptStr (safeCount req.count) (jsToString req.genre) (jsToString req.camera)
          (jsToString req.stagePosition) (jsToString req.playtime) (jsToString req.difficulty)
          (jsToString req.focus) (themeText req.themeKeywords) notes, rfl, rfl⟩
  case true =>
  cases h7 : extractContent up.data with
  | error m =>
    refine ⟨?_, ?_, fun c1 c2 hc1 hc2 => ?_⟩
    · simp [ServerJs.handle, Part000.handle, h1, h2, h3, h4, h5, h6, h7]
    · simp [ServerJs.handle, Part000.handle, h1, h2, h3, h4, h5, h6, h7]
    · simp [ServerJs.handle, Part000.handle, h1, h2, h3, h4, h5, h6, h7] at hc1 hc2
      subst hc1
      subst hc2
      exact ⟨rfl, rfl, rfl, rfl, rfl, rfl, rfl,
        Part000.userPromptStr (safeCount req.count) (jsToString req.genre) (jsToString req.camera)
          (jsToString req.stagePosition) (jsToString req.playtime) (jsToString req.difficulty)
          (jsToString req.focus) (themeText req.themeKeywords) notes, rfl, rfl⟩
  | ok content =>
    refine ⟨?_, ?_, fun c1 c2 hc1 hc2 => ?_⟩
    · simp [ServerJs.handle, Part000.handle, h1, h2, h3, h4, h5, h6, h7]
    · simp [ServerJs.handle, Part000.handle, h1, h2, h3, h4, h5, h6, h7]
    · simp [ServerJs.handle, Part000.handle, h1, h2, h3, h4, h5, h6, h7] at hc1 hc2
      subst hc1
      subst hc2
      exact ⟨rfl, rfl, rfl, rfl, rfl, rfl, rfl,
        Part000.userPromptStr (safeCount req.count) (jsToString req.genre) (jsToString req.camera)
          (jsToString req.stagePosition) (jsToString req.playtime) (jsToString req.difficulty)
          (jsToString req.focus) (themeText req.themeKeywords) notes, rfl, rfl⟩

/-- Witness for C10's call-comparison clause at the sample request. -/
theorem C10_variants_equivalent_witness :
    (ServerJs.callOf ("sk-test") sampleReq).url = (Part000.callOf ("sk-test") sampleReq).url
    ∧ (ServerJs.callOf ("sk-test") sampleReq).method = (Part000.callOf ("sk-test") sampleReq).method
    ∧ (ServerJs.callOf ("sk-test") sampleReq).authorization = (Part000.callOf ("sk-test") sampleReq).authorization
    ∧ (ServerJs.callOf ("sk-test") sampleReq).contentType = (Part000.callOf ("sk-test") sampleReq).contentType
    ∧ (ServerJs.callOf ("sk-test") sampleReq).model = (Part000.callOf ("sk-test") sampleReq).model
    ∧ (ServerJs.callOf ("sk-test") sampleReq).temperature = (Part000.callOf ("sk-test") sampleReq).temperature
    ∧ (ServerJs.callOf ("sk-test") sampleReq).max_tokens = (Part000.callOf ("sk-test") sampleReq).max_tokens
    ∧ ∃ p, (Part000.callOf ("sk-test") sampleReq).messages
            = [⟨"system", Part000.SYSTEM_PROMPT⟩, ⟨"user", p⟩]
        ∧ (ServerJs.callOf ("sk-test") sampleReq).messages
            = [⟨"system", ServerJs.SYSTEM_PROMPT⟩, ⟨"user", p ++ layoutTail⟩] :=
  (C10_variants_equivalent sampleReq okUp).2.2
    (ServerJs.callOf ("sk-test") sampleReq) (Part000.callOf ("sk-test") sampleReq)
    (by rw [server_handle_valid sampleReq okUp ("sk-test") rfl (by decide) (by decide) (Or.inr rfl)])
    (by rw [part0_handle_valid sampleReq okUp ("sk-test") rfl (by decide) (by decide) (Or.inr rfl)])
